import Mathlib

/-!
Shallow embedding of the ness-wear-backend category/subcategory service
(`src/index.js`).  The repository holds two entry-point variants of the same
server concatenated in one file: variant A (lines 1-359, caller-generated
timestamp-string identifiers, no unique index, no startup secret check) and
variant B (lines 360-695, database-assigned identifiers, unique name index,
startup secret check).  Handlers below are translated from variant A unless
their name carries a `B` suffix.

Request-body fields are JavaScript/JSON values; `Option` marks presence
(`none` = the field is absent/`undefined`).  MongoDB collections are lists of
documents in insertion order: `findOne`/`updateOne`/`deleteOne` act on the
first match, `insertOne` appends, `deleteMany` removes all matches.  Clock
reads (`new Date()`, `Date.getTime()`) are an explicit `now : Nat` parameter.
-/

namespace NessWear

/-- A JSON value as a JavaScript runtime value, as far as the handlers
inspect one (the handlers only test truthiness and store values). -/
inductive JsValue where
  | null
  | bool (b : Bool)
  | num (n : Int)
  | str (s : String)
deriving DecidableEq, Repr

/-- JavaScript truthiness of a `JsValue` (`!v` in the source negates this). -/
def JsValue.truthy : JsValue → Bool
  | .null => false
  | .bool b => b
  | .num n => n != 0
  | .str s => s != ""

/-- Truthiness of a possibly-absent body field (`undefined` is falsy). -/
def truthyOpt : Option JsValue → Bool
  | none => false
  | some v => v.truthy

/-- Truthiness of a possibly-absent string (query parameter / env var). -/
def truthyStr : Option String → Bool
  | none => false
  | some s => s != ""

/-- A document of the `categories` collection, as built by the create
handler (`POST /categories`, src/index.js:143-151). -/
structure Category where
  _id : String
  name : JsValue
  description : Option JsValue
  image : Option JsValue
  isActive : JsValue
  createdAt : Nat
  updatedAt : Nat
deriving DecidableEq, Repr

/-- A document of the `subcategories` collection
(`POST /subcategories`, src/index.js:273-282). -/
structure Subcategory where
  _id : String
  name : JsValue
  description : Option JsValue
  categoryId : JsValue
  image : Option JsValue
  isActive : JsValue
  createdAt : Nat
  updatedAt : Nat
deriving DecidableEq, Repr

/-- The two collections of `nesswearDB` touched by the handlers. -/
structure DB where
  categories : List Category
  subcategories : List Subcategory
deriving DecidableEq, Repr

/-- A JSON response body, one constructor per shape the handlers emit. -/
inductive ResBody where
  | err (msg : String)
  | msg (m : String)
  | cat (c : Category)
  | cats (l : List Category)
  | subcat (s : Subcategory)
  | subcats (l : List Subcategory)
  | jsonNull
deriving DecidableEq, Repr

/-- Outcome of one request: HTTP status, JSON body, database afterwards. -/
structure HResult where
  status : Nat
  body : ResBody
  db : DB
deriving DecidableEq, Repr

/-! ### List primitives mirroring the MongoDB driver operations -/

/-- `updateOne` with a `$set`: rewrite the first document matching `p`. -/
def updateFirst {α : Type} (p : α → Bool) (f : α → α) : List α → List α
  | [] => []
  | x :: xs => if p x then f x :: xs else x :: updateFirst p f xs

/-! ### Request bodies -/

/-- Body of `POST /categories` and `PUT /categories/:id` after
destructuring (`name`, `description`, `image`, `isActive`). -/
structure CategoryBody where
  name : Option JsValue
  description : Option JsValue
  image : Option JsValue
  isActive : Option JsValue
deriving DecidableEq, Repr

/-- Body of `POST /subcategories` and `PUT /subcategories/:id`. -/
structure SubcategoryBody where
  name : Option JsValue
  description : Option JsValue
  categoryId : Option JsValue
  image : Option JsValue
  isActive : Option JsValue
deriving DecidableEq, Repr

/-- Merge of one optional field in an update (`if (f !== undefined)
updateData.f = f`), for fields stored as possibly-absent values. -/
def mergeField (new old : Option JsValue) : Option JsValue :=
  match new with
  | none => old
  | some v => some v

/-- `findOne({ _id: categoryId })` on `categories`, where `categoryId` is a
body value: MongoDB equality of the value against the string `_id`. -/
def findCategory (db : DB) (v : JsValue) : Option Category :=
  db.categories.find? (fun c => v == .str c._id)

/-! ### Category handlers (variant A, src/index.js:107-217) -/

/-- `GET /categories` (src/index.js:107-115). -/
def getCategories (db : DB) : HResult :=
  ⟨200, .cats db.categories, db⟩

/-- `POST /categories` (src/index.js:135-164): falsy `name` is rejected
with 400 before any database call; otherwise the document is built with a
timestamp `_id`, set timestamps and `isActive` defaulting to `true`, and
inserted (`insertOne` on the indexless variant-A collection always
succeeds, so the `result.insertedId` branch returns 201). -/
def postCategories (body : CategoryBody) (now : Nat) (db : DB) : HResult :=
  if !truthyOpt body.name then ⟨400, .err "Category name is required", db⟩
  else
    let category : Category :=
      { _id := toString now
        name := body.name.getD .null
        description := body.description
        image := body.image
        isActive := body.isActive.getD (.bool true)
        createdAt := now
        updatedAt := now }
    ⟨201, .cat category, { db with categories := db.categories ++ [category] }⟩

/-- The `$set` document of `PUT /categories/:id` (src/index.js:172-179)
applied to a stored document: only fields present in the body are written,
`updatedAt` always is. -/
def applyCategoryUpdate (body : CategoryBody) (now : Nat) (c : Category) : Category :=
  { c with
    name := body.name.getD c.name
    description := mergeField body.description c.description
    image := mergeField body.image c.image
    isActive := body.isActive.getD c.isActive
    updatedAt := now }

/-- `PUT /categories/:id` (src/index.js:167-196): `updateOne` then a
`matchedCount` check (equivalent to checking the match first, since a
matchless update changes nothing), then `findOne` for the refreshed
document (`res.json(null)` if it were somehow gone). -/
def putCategories (id : String) (body : CategoryBody) (now : Nat) (db : DB) : HResult :=
  match db.categories.find? (fun c => c._id == id) with
  | none => ⟨404, .err "Category not found", db⟩
  | some _ =>
    let db' : DB :=
      { db with categories := updateFirst (fun c => c._id == id) (applyCategoryUpdate body now) db.categories }
    match db'.categories.find? (fun c => c._id == id) with
    | some c => ⟨200, .cat c, db'⟩
    | none => ⟨200, .jsonNull, db'⟩

/-- `DELETE /categories/:id` (src/index.js:199-217): `deleteOne` on
categories; on `deletedCount === 0` report 404 and run no cascade;
otherwise `deleteMany({ categoryId: id })` on subcategories, then 200. -/
def deleteCategories (id : String) (db : DB) : HResult :=
  match db.categories.find? (fun c => c._id == id) with
  | none => ⟨404, .err "Category not found", db⟩
  | some _ =>
    let db' : DB :=
      { categories := db.categories.eraseP (fun c => c._id == id)
        subcategories := db.subcategories.filter (fun s => s.categoryId != .str id) }
    ⟨200, .msg "Category deleted successfully", db'⟩

/-! ### Subcategory handlers (variant A, src/index.js:224-353) -/

/-- `GET /subcategories` (src/index.js:224-235): `const query = categoryId
? { categoryId } : {}` — the equality filter applies only to a truthy
query-parameter value. -/
def getSubcategories (categoryId : Option String) (db : DB) : HResult :=
  if truthyStr categoryId then
    ⟨200, .subcats (db.subcategories.filter (fun s => s.categoryId == .str (categoryId.getD ""))), db⟩
  else ⟨200, .subcats db.subcategories, db⟩

/-- `POST /subcategories` (src/index.js:255-295): falsy `name`, then falsy
`categoryId`, each rejected with 400 before any database call; then the
parent category is looked up and its absence rejected with 400; otherwise
the document is built and inserted. -/
def postSubcategories (body : SubcategoryBody) (now : Nat) (db : DB) : HResult :=
  if !truthyOpt body.name then ⟨400, .err "Subcategory name is required", db⟩
  else if !truthyOpt body.categoryId then ⟨400, .err "Category ID is required", db⟩
  else
    match findCategory db (body.categoryId.getD .null) with
    | none => ⟨400, .err "Parent category not found", db⟩
    | some _ =>
      let subcategory : Subcategory :=
        { _id := toString now
          name := body.name.getD .null
          description := body.description
          categoryId := body.categoryId.getD .null
          image := body.image
          isActive := body.isActive.getD (.bool true)
          createdAt := now
          updatedAt := now }
      ⟨201, .subcat subcategory, { db with subcategories := db.subcategories ++ [subcategory] }⟩

/-- The `$set` document of `PUT /subcategories/:id` (src/index.js:303-318)
applied to a stored document; `catId` is the validated `categoryId` body
field (`none` when the body did not carry one). -/
def applySubcategoryUpdate (body : SubcategoryBody) (now : Nat) (catId : Option JsValue)
    (s : Subcategory) : Subcategory :=
  { s with
    name := body.name.getD s.name
    description := mergeField body.description s.description
    categoryId := catId.getD s.categoryId
    image := mergeField body.image s.image
    isActive := body.isActive.getD s.isActive
    updatedAt := now }

/-- The `updateOne`/`matchedCount`/`findOne` tail of `PUT
/subcategories/:id` (src/index.js:320-330), after the referential check. -/
def putSubcatApply (id : String) (body : SubcategoryBody) (now : Nat) (catId : Option JsValue)
    (db : DB) : HResult :=
  match db.subcategories.find? (fun s => s._id == id) with
  | none => ⟨404, .err "Subcategory not found", db⟩
  | some _ =>
    let db' : DB :=
      { db with subcategories := updateFirst (fun s => s._id == id) (applySubcategoryUpdate body now catId) db.subcategories }
    match db'.subcategories.find? (fun s => s._id == id) with
    | some s => ⟨200, .subcat s, db'⟩
    | none => ⟨200, .jsonNull, db'⟩

/-- `PUT /subcategories/:id` (src/index.js:298-335): when the body carries
`categoryId` (`!== undefined`) the new parent is looked up first and its
absence rejected with 400 before the update runs. -/
def putSubcategories (id : String) (body : SubcategoryBody) (now : Nat) (db : DB) : HResult :=
  match body.categoryId with
  | some v =>
    match findCategory db v with
    | none => ⟨400, .err "Parent category not found", db⟩
    | some _ => putSubcatApply id body now (some v) db
  | none => putSubcatApply id body now none db

/-- `DELETE /subcategories/:id` (src/index.js:338-353). -/
def deleteSubcategories (id : String) (db : DB) : HResult :=
  match db.subcategories.find? (fun s => s._id == id) with
  | none => ⟨404, .err "Subcategory not found", db⟩
  | some _ =>
    ⟨200, .msg "Subcategory deleted successfully",
      { db with subcategories := db.subcategories.eraseP (fun s => s._id == id) }⟩

/-! ### Token service (src/index.js:22-37, external `jsonwebtoken` library
modelled abstractly: a token is either a signed payload with its secret and
expiry instant, or an arbitrary malformed string; `jwt.sign`/`jwt.verify`
behave per that library: signing embeds the claims and `now + expiresIn`,
verifying throws on a missing/empty secret, a malformed token, a wrong
signature, or an expiry instant at or before the clock). -/

/-- The identity claims a token carries (`{ userId: user._id, email:
user.email }`). -/
structure Claims where
  userId : String
  email : String
deriving DecidableEq, Repr

/-- A user record, as far as `generateToken` reads it. -/
structure User where
  _id : String
  email : String
deriving DecidableEq, Repr

/-- A bearer token: a signed payload, or any other header word. -/
inductive JwtToken where
  | signed (claims : Claims) (secret : String) (exp : Nat)
  | malformed (raw : String)
deriving DecidableEq, Repr

/-- `expiresIn: "30d"` in seconds. -/
def thirtyDays : Nat := 30 * 24 * 60 * 60

/-- `generateToken` (src/index.js:23-29) with a configured secret. -/
def generateToken (user : User) (jwtSecret : String) (now : Nat) : JwtToken :=
  .signed ⟨user._id, user.email⟩ jwtSecret (now + thirtyDays)

/-- `jwt.verify(token, process.env.JWT_SECRET)`: the exception-or-claims
behaviour of the library call inside `verifyToken`. -/
def jwtVerify (token : JwtToken) (jwtSecret : Option String) (now : Nat) : Except String Claims :=
  match jwtSecret with
  | none => .error "secretOrPrivateKey must have a value"
  | some sec =>
    if sec = "" then .error "secretOrPrivateKey must have a value"
    else
      match token with
      | .malformed _ => .error "jwt malformed"
      | .signed c s exp =>
        if s ≠ sec then .error "invalid signature"
        else if exp ≤ now then .error "jwt expired"
        else .ok c

/-- `verifyToken` (src/index.js:31-37): the `try/catch` turns any
verification failure into `null`. -/
def verifyToken (token : JwtToken) (jwtSecret : Option String) (now : Nat) : Option Claims :=
  (jwtVerify token jwtSecret now).toOption

/-! ### Authentication middleware (variant A, src/index.js:71-86).  The
`Authorization` header is modelled as its space-separated word list (each
word read as a token; scheme words such as `Bearer` are malformed tokens);
`authHeader && authHeader.split(' ')[1]` takes word index 1. -/

/-- `authHeader && authHeader.split(' ')[1]`. -/
def extractToken : Option (List JwtToken) → Option JwtToken
  | none => none
  | some ws => ws[1]?

/-- JavaScript falsiness of the extracted token string: only the empty
word is a falsy string. -/
def JwtToken.falsy : JwtToken → Bool
  | .malformed s => s = ""
  | .signed _ _ _ => false

/-- `if (!token)` over the extraction result. -/
def tokenMissing (authHeader : Option (List JwtToken)) : Bool :=
  match extractToken authHeader with
  | none => true
  | some t => t.falsy

/-- `authenticateToken` (src/index.js:71-86) wrapped around a route
handler: 401 without a token, 403 on failed verification, otherwise the
handler runs with the decoded claims on the request. -/
def authenticateToken (authHeader : Option (List JwtToken)) (jwtSecret : Option String)
    (now : Nat) (db : DB) (handler : Claims → DB → HResult) : HResult :=
  match extractToken authHeader with
  | none => ⟨401, .err "Access token required", db⟩
  | some t =>
    if t.falsy then ⟨401, .err "Access token required", db⟩
    else
      match verifyToken t jwtSecret now with
      | none => ⟨403, .err "Invalid or expired token", db⟩
      | some c => handler c db

/-! ### Variant B specifics (src/index.js:384-387, 414-422, 504-523) -/

/-- `POST /categories` of variant B (src/index.js:504-523) with the unique
`{ name: 1 }` index of its `connectDB` (src/index.js:415-418) in place:
`insertOne` of a duplicate name throws a duplicate-key error, which the
handler's `catch` maps to a 500; the identifier is database-assigned. -/
def postCategoriesB (body : CategoryBody) (newId : String) (now : Nat) (db : DB) : HResult :=
  if !truthyOpt body.name then ⟨400, .err "Category name required", db⟩
  else if db.categories.any (fun c => c.name == body.name.getD .null) then
    ⟨500, .err "Failed to create category", db⟩
  else
    let category : Category :=
      { _id := newId
        name := body.name.getD .null
        description := body.description
        image := body.image
        isActive := body.isActive.getD (.bool true)
        createdAt := now
        updatedAt := now }
    ⟨201, .cat category, { db with categories := db.categories ++ [category] }⟩

/-- Fate of the process after start-up. -/
inductive StartupOutcome where
  | exited
  | serving
deriving DecidableEq, Repr

/-- Variant A start-up (src/index.js:44-53, 356-359): no secret check;
`connectDB` failure exits, success serves. -/
def startupA (jwtSecret : Option String) (connectOk : Bool) : StartupOutcome :=
  if connectOk then .serving else .exited

/-- Variant B start-up (src/index.js:384-387, 689-695): `if
(!process.env.JWT_SECRET) process.exit(1)` before anything else, then
`connectDB` as in variant A. -/
def startupB (jwtSecret : Option String) (connectOk : Bool) : StartupOutcome :=
  if !truthyStr jwtSecret then .exited
  else if connectOk then .serving else .exited

/-! ### Claim statements as predicates over the embedding -/

/-- C9's property: an empty `categoryId` query parameter (present or
absent) applies no filter; a nonempty one applies the equality filter. -/
def EmptyParamSpec (db : DB) : Prop :=
  getSubcategories (some "") db = ⟨200, .subcats db.subcategories, db⟩ ∧
  getSubcategories none db = ⟨200, .subcats db.subcategories, db⟩ ∧
  ∀ s, s ≠ "" → getSubcategories (some s) db =
    ⟨200, .subcats (db.subcategories.filter (fun x => x.categoryId == .str s)), db⟩

/-- C10's property: a required field that is supplied but falsy is
rejected as missing, with a 400 and an untouched database. -/
def FalsyRequiredSpec (cbody : CategoryBody) (sbody : SubcategoryBody) (now : Nat) (db : DB) : Prop :=
  (∀ v, cbody.name = some v → v.truthy = false →
      postCategories cbody now db = ⟨400, .err "Category name is required", db⟩) ∧
  (∀ v, sbody.name = some v → v.truthy = false →
      postSubcategories sbody now db = ⟨400, .err "Subcategory name is required", db⟩) ∧
  (∀ v, sbody.categoryId = some v → v.truthy = false → truthyOpt sbody.name = true →
      postSubcategories sbody now db = ⟨400, .err "Category ID is required", db⟩)

/-- C8's property: a token issued for a user verifies to that user's id
and email with the same secret inside the validity window, and malformed,
wrongly-signed or expired tokens all verify to `none` (the caller sees no
exception). -/
def TokenRoundtripSpec (u : User) (sec : String) (now t : Nat) : Prop :=
  verifyToken (generateToken u sec now) (some sec) t = some ⟨u._id, u.email⟩ ∧
  (∀ raw, verifyToken (.malformed raw) (some sec) t = none) ∧
  (∀ c s exp, s ≠ sec → verifyToken (.signed c s exp) (some sec) t = none) ∧
  (∀ c s exp, exp ≤ t → verifyToken (.signed c s exp) (some sec) t = none)

/-- C5's property: the middleware answers 401 with an untouched database
when no token is presented, 403 with an untouched database when the
presented token fails verification, and runs the handler (with the decoded
claims) only for a verified token. -/
def AuthGateSpec (authHeader : Option (List JwtToken)) (jwtSecret : Option String) (now : Nat)
    (db : DB) (handler : Claims → DB → HResult) : Prop :=
  (tokenMissing authHeader = true →
      authenticateToken authHeader jwtSecret now db handler = ⟨401, .err "Access token required", db⟩) ∧
  (∀ t, extractToken authHeader = some t → t.falsy = false → verifyToken t jwtSecret now = none →
      authenticateToken authHeader jwtSecret now db handler = ⟨403, .err "Invalid or expired token", db⟩) ∧
  (∀ t c, extractToken authHeader = some t → verifyToken t jwtSecret now = some c →
      authenticateToken authHeader jwtSecret now db handler = handler c db)

/-- C6's (amended) property: variant B exits at startup on a missing or
empty signing secret and otherwise starts like variant A; variant A
performs no secret check, and without a secret every token verification
returns `none`. -/
def StartupCheckSpec (connectOk : Bool) (s : String) (t : JwtToken) (now : Nat) : Prop :=
  startupB none connectOk = .exited ∧
  startupB (some "") connectOk = .exited ∧
  (s ≠ "" → startupB (some s) connectOk = startupA (some s) connectOk) ∧
  verifyToken t none now = none

/-- C4's (amended) property: variant B's create, with the unique name
index in place, answers a duplicate name with a 500 and creates nothing,
and a fresh truthy name with a 201 storing that name. -/
def UniqueNameSpec (body : CategoryBody) (newId : String) (now : Nat) (db : DB) (v : JsValue) : Prop :=
  (db.categories.any (fun c => c.name == v) = true →
      postCategoriesB body newId now db = ⟨500, .err "Failed to create category", db⟩) ∧
  (db.categories.any (fun c => c.name == v) = false →
      ∃ c, postCategoriesB body newId now db =
          ⟨201, .cat c, { db with categories := db.categories ++ [c] }⟩ ∧ c.name = v)

/-- C2's property: a category delete with no matching category answers 404
and leaves the database untouched; a matching one removes the category
(one document fewer; none left under that identifier when identifiers are
pairwise distinct), removes exactly the subcategories referencing it, and
a subsequent filtered subcategory list is empty. -/
def CascadeDeleteSpec (id : String) (db : DB) : Prop :=
  ((db.categories.find? (fun c => c._id == id)).isSome = false →
      deleteCategories id db = ⟨404, .err "Category not found", db⟩) ∧
  ((db.categories.find? (fun c => c._id == id)).isSome = true →
      (deleteCategories id db).status = 200 ∧
      (deleteCategories id db).body = .msg "Category deleted successfully" ∧
      (deleteCategories id db).db.categories.length + 1 = db.categories.length ∧
      (db.categories.Pairwise (fun a b => a._id ≠ b._id) →
        (deleteCategories id db).db.categories.find? (fun c => c._id == id) = none) ∧
      (∀ s ∈ (deleteCategories id db).db.subcategories, s.categoryId ≠ .str id) ∧
      (∀ s ∈ db.subcategories, s.categoryId ≠ .str id → s ∈ (deleteCategories id db).db.subcategories) ∧
      (id ≠ "" → (getSubcategories (some id) (deleteCategories id db).db).body = .subcats []))

/-- C1's property: a subcategory create with a truthy category reference,
and a subcategory update carrying a category reference, are rejected with
400 (`Parent category not found`) and an untouched database when the
referenced category does not exist; when it exists the write goes through
and the stored and returned reference equals the supplied value. -/
def RefIntegritySpec (body : SubcategoryBody) (id : String) (now : Nat) (db : DB) (v : JsValue) : Prop :=
  (v.truthy = true → findCategory db v = none →
      postSubcategories body now db = ⟨400, .err "Parent category not found", db⟩) ∧
  (v.truthy = true → (findCategory db v).isSome = true →
      ∃ doc, postSubcategories body now db =
          ⟨201, .subcat doc, { db with subcategories := db.subcategories ++ [doc] }⟩ ∧
        doc.categoryId = v) ∧
  (findCategory db v = none →
      putSubcategories id body now db = ⟨400, .err "Parent category not found", db⟩) ∧
  ((findCategory db v).isSome = true →
      (db.subcategories.find? (fun s => s._id == id)).isSome = true →
      ∃ s, (putSubcategories id body now db).status = 200 ∧
        (putSubcategories id body now db).body = .subcat s ∧
        (putSubcategories id body now db).db.subcategories.find? (fun x => x._id == id) = some s ∧
        s.categoryId = v)

/-- C3's (amended) property: an update answers 404 when no document
matches and 200 with the refreshed stored document when one does —
unconditionally for categories, and for subcategories whenever the
supplied category reference (if any) exists; a supplied reference to a
nonexistent category makes the subcategory update answer 400 instead. -/
def UpdateStatusSpec (id : String) (cbody : CategoryBody) (sbody : SubcategoryBody)
    (now : Nat) (db : DB) : Prop :=
  (db.categories.find? (fun c => c._id == id) = none →
      putCategories id cbody now db = ⟨404, .err "Category not found", db⟩) ∧
  ((db.categories.find? (fun c => c._id == id)).isSome = true →
      ∃ c, (putCategories id cbody now db).status = 200 ∧
        (putCategories id cbody now db).body = .cat c ∧
        (putCategories id cbody now db).db.categories.find? (fun x => x._id == id) = some c) ∧
  ((sbody.categoryId = none ∨ ∃ v, sbody.categoryId = some v ∧ (findCategory db v).isSome = true) →
    (db.subcategories.find? (fun s => s._id == id) = none →
        putSubcategories id sbody now db = ⟨404, .err "Subcategory not found", db⟩) ∧
    ((db.subcategories.find? (fun s => s._id == id)).isSome = true →
        ∃ s, (putSubcategories id sbody now db).status = 200 ∧
          (putSubcategories id sbody now db).body = .subcat s ∧
          (putSubcategories id sbody now db).db.subcategories.find? (fun x => x._id == id) = some s)) ∧
  ((∃ v, sbody.categoryId = some v ∧ findCategory db v = none) →
      putSubcategories id sbody now db = ⟨400, .err "Parent category not found", db⟩)

/-- C7's property for categories: a 200 update leaves every other
document (including all subcategories) unchanged and rewrites the matched
document field-by-field — supplied fields to the supplied values,
unsupplied fields kept, `updatedAt` always set to the clock. -/
def UpdateFrameCatSpec (id : String) (body : CategoryBody) (now : Nat) (db : DB) : Prop :=
  (putCategories id body now db).status = 200 →
    ∃ pre c post c',
      db.categories = pre ++ c :: post ∧ (c._id == id) = true ∧
      (putCategories id body now db).db.categories = pre ++ c' :: post ∧
      (putCategories id body now db).db.subcategories = db.subcategories ∧
      c'._id = c._id ∧ c'.createdAt = c.createdAt ∧ c'.updatedAt = now ∧
      (body.name = none → c'.name = c.name) ∧
      (∀ v, body.name = some v → c'.name = v) ∧
      (body.description = none → c'.description = c.description) ∧
      (∀ v, body.description = some v → c'.description = some v) ∧
      (body.image = none → c'.image = c.image) ∧
      (∀ v, body.image = some v → c'.image = some v) ∧
      (body.isActive = none → c'.isActive = c.isActive) ∧
      (∀ v, body.isActive = some v → c'.isActive = v)

/-- C7's property for subcategories, analogous to `UpdateFrameCatSpec`
with the category reference as a fifth mutable field. -/
def UpdateFrameSubcatSpec (id : String) (body : SubcategoryBody) (now : Nat) (db : DB) : Prop :=
  (putSubcategories id body now db).status = 200 →
    ∃ pre s post s',
      db.subcategories = pre ++ s :: post ∧ (s._id == id) = true ∧
      (putSubcategories id body now db).db.subcategories = pre ++ s' :: post ∧
      (putSubcategories id body now db).db.categories = db.categories ∧
      s'._id = s._id ∧ s'.createdAt = s.createdAt ∧ s'.updatedAt = now ∧
      (body.name = none → s'.name = s.name) ∧
      (∀ v, body.name = some v → s'.name = v) ∧
      (body.description = none → s'.description = s.description) ∧
      (∀ v, body.description = some v → s'.description = some v) ∧
      (body.image = none → s'.image = s.image) ∧
      (∀ v, body.image = some v → s'.image = some v) ∧
      (body.isActive = none → s'.isActive = s.isActive) ∧
      (∀ v, body.isActive = some v → s'.isActive = v) ∧
      (body.categoryId = none → s'.categoryId = s.categoryId) ∧
      (∀ v, body.categoryId = some v → s'.categoryId = v)

/-! ### Concrete fixtures for witnesses and counterexamples -/

/-- A stored category, as created by `POST /categories` at clock 100. -/
def catHoodies : Category :=
  ⟨"100", .str "Hoodies", none, none, .bool true, 100, 100⟩

/-- A stored subcategory referencing `catHoodies`. -/
def subZip : Subcategory :=
  ⟨"200", .str "Zip Hoodies", none, .str "100", none, .bool true, 200, 200⟩

/-- A small database state: one category, one subcategory under it. -/
def sampleDB : DB := ⟨[catHoodies], [subZip]⟩

/-! ### Helper lemmas on the list primitives -/

theorem find?_isSome_decomp {α : Type} (p : α → Bool) (l : List α)
    (h : (l.find? p).isSome = true) :
    ∃ pre x post, l = pre ++ x :: post ∧ (∀ y ∈ pre, p y = false) ∧ p x = true := by
  induction l with
  | nil => simp [List.find?] at h
  | cons a as ih =>
    by_cases ha : p a = true
    · exact ⟨[], a, as, rfl, by simp, ha⟩
    · rw [List.find?_cons_of_neg _ (by simpa using ha)] at h
      obtain ⟨pre, x, post, hl, hpre, hx⟩ := ih h
      refine ⟨a :: pre, x, post, by simp [hl], ?_, hx⟩
      intro y hy
      rcases List.mem_cons.mp hy with rfl | hy
      · simpa using ha
      · exact hpre y hy

theorem find?_append_first {α : Type} (p : α → Bool) (pre : List α) (x : α) (post : List α)
    (hpre : ∀ y ∈ pre, p y = false) (hx : p x = true) :
    (pre ++ x :: post).find? p = some x := by
  induction pre with
  | nil => simpa [List.find?_cons_of_pos] using List.find?_cons_of_pos post hx
  | cons a as ih =>
    have ha : p a = false := hpre a (by simp)
    rw [List.cons_append, List.find?_cons_of_neg _ (by simp [ha])]
    exact ih (fun y hy => hpre y (by simp [hy]))

theorem updateFirst_append {α : Type} (p : α → Bool) (f : α → α) (pre : List α) (x : α)
    (post : List α) (hpre : ∀ y ∈ pre, p y = false) (hx : p x = true) :
    updateFirst p f (pre ++ x :: post) = pre ++ f x :: post := by
  induction pre with
  | nil => simp [updateFirst, hx]
  | cons a as ih =>
    have ha : p a = false := hpre a (by simp)
    have h2 := ih (fun y hy => hpre y (by simp [hy]))
    simp [updateFirst, ha, h2]

theorem eraseP_append_first {α : Type} (p : α → Bool) (pre : List α) (x : α) (post : List α)
    (hpre : ∀ y ∈ pre, p y = false) (hx : p x = true) :
    (pre ++ x :: post).eraseP p = pre ++ post := by
  induction pre with
  | nil => simp [List.eraseP_cons, hx]
  | cons a as ih =>
    have ha : p a = false := hpre a (by simp)
    have h2 := ih (fun y hy => hpre y (by simp [hy]))
    simp [List.eraseP_cons, ha, h2]

theorem filter_of_filter_not {α : Type} (p : α → Bool) (l : List α) :
    (l.filter (fun y => !p y)).filter p = [] := by
  induction l with
  | nil => rfl
  | cons a as ih =>
    by_cases ha : p a = true <;> simp [List.filter_cons, ha, ih]

theorem filter_bne_filter_beq (l : List Subcategory) (v : JsValue) :
    (l.filter (fun s => s.categoryId != v)).filter (fun s => s.categoryId == v) = [] := by
  induction l with
  | nil => rfl
  | cons a as ih =>
    by_cases ha : (a.categoryId == v) = true <;>
      simp [List.filter_cons, ha, bne, ih]

/-! ### Helper lemmas on the token service and the update handlers -/

theorem verifyToken_malformed (raw : String) (jwtSecret : Option String) (now : Nat) :
    verifyToken (.malformed raw) jwtSecret now = none := by
  cases jwtSecret with
  | none => rfl
  | some sec =>
    by_cases h : sec = "" <;> simp [verifyToken, jwtVerify, h, Except.toOption]

/-- A matched category update: decomposition of the collection around the
first match, and the handler's full result. -/
theorem putCategories_matched (id : String) (body : CategoryBody) (now : Nat) (db : DB)
    (h : (db.categories.find? (fun c => c._id == id)).isSome = true) :
    ∃ pre c post,
      db.categories = pre ++ c :: post ∧ (∀ y ∈ pre, (y._id == id) = false) ∧
      (c._id == id) = true ∧
      putCategories id body now db =
        ⟨200, .cat (applyCategoryUpdate body now c),
          { db with categories := pre ++ applyCategoryUpdate body now c :: post }⟩ := by
  obtain ⟨pre, c, post, hdecomp, hpre, hc⟩ := find?_isSome_decomp _ _ h
  refine ⟨pre, c, post, hdecomp, hpre, hc, ?_⟩
  have hid : ((applyCategoryUpdate body now c)._id == id) = true := hc
  have hfind : db.categories.find? (fun x => x._id == id) = some c := by
    rw [hdecomp]; exact find?_append_first _ _ _ _ hpre hc
  have hupd : updateFirst (fun x => x._id == id) (applyCategoryUpdate body now) db.categories
      = pre ++ applyCategoryUpdate body now c :: post := by
    rw [hdecomp]; exact updateFirst_append _ _ _ _ _ hpre hc
  have hfind2 : (pre ++ applyCategoryUpdate body now c :: post).find? (fun x => x._id == id)
      = some (applyCategoryUpdate body now c) := find?_append_first _ _ _ _ hpre hid
  simp [putCategories, hfind, hupd, hfind2]

/-- A matched subcategory update tail: decomposition of the collection
around the first match, and the tail's full result. -/
theorem putSubcatApply_matched (id : String) (body : SubcategoryBody) (now : Nat)
    (catId : Option JsValue) (db : DB)
    (h : (db.subcategories.find? (fun s => s._id == id)).isSome = true) :
    ∃ pre s post,
      db.subcategories = pre ++ s :: post ∧ (∀ y ∈ pre, (y._id == id) = false) ∧
      (s._id == id) = true ∧
      putSubcatApply id body now catId db =
        ⟨200, .subcat (applySubcategoryUpdate body now catId s),
          { db with subcategories := pre ++ applySubcategoryUpdate body now catId s :: post }⟩ := by
  obtain ⟨pre, s, post, hdecomp, hpre, hs⟩ := find?_isSome_decomp _ _ h
  refine ⟨pre, s, post, hdecomp, hpre, hs, ?_⟩
  have hid : ((applySubcategoryUpdate body now catId s)._id == id) = true := hs
  have hfind : db.subcategories.find? (fun x => x._id == id) = some s := by
    rw [hdecomp]; exact find?_append_first _ _ _ _ hpre hs
  have hupd : updateFirst (fun x => x._id == id) (applySubcategoryUpdate body now catId)
      db.subcategories = pre ++ applySubcategoryUpdate body now catId s :: post := by
    rw [hdecomp]; exact updateFirst_append _ _ _ _ _ hpre hs
  have hfind2 : (pre ++ applySubcategoryUpdate body now catId s :: post).find?
      (fun x => x._id == id) = some (applySubcategoryUpdate body now catId s) :=
    find?_append_first _ _ _ _ hpre hid
  simp [putSubcatApply, hfind, hupd, hfind2]

/-! ### Claim theorems -/

/-- C9: a present-but-empty `categoryId` query parameter applies no filter
(the full subcategory list is returned, as with an absent parameter); the
equality filter is applied only for a nonempty (truthy) value. -/
theorem subcategories_query_empty_param (db : DB) : EmptyParamSpec db := by
  refine ⟨rfl, rfl, fun s hs => ?_⟩
  simp [getSubcategories, truthyStr, bne_iff_ne, hs]

theorem subcategories_query_empty_param_witness : EmptyParamSpec sampleDB :=
  subcategories_query_empty_param sampleDB

/-- C10: the required-field check on create is falsiness-based: a `name`
(or subcategory `categoryId`) supplied as any falsy value is rejected as
missing with a 400 and no database change. -/
theorem create_falsy_required (cbody : CategoryBody) (sbody : SubcategoryBody)
    (now : Nat) (db : DB) : FalsyRequiredSpec cbody sbody now db := by
  refine ⟨?_, ?_, ?_⟩
  · intro v hv hfalsy
    simp [postCategories, truthyOpt, hv, hfalsy]
  · intro v hv hfalsy
    simp [postSubcategories, truthyOpt, hv, hfalsy]
  · intro v hv hfalsy hname
    have h2 : truthyOpt sbody.categoryId = false := by
      rw [hv]; simpa [truthyOpt] using hfalsy
    simp [postSubcategories, hname, h2]

theorem create_falsy_required_witness :
    FalsyRequiredSpec ⟨some (.str ""), none, none, none⟩
      ⟨some (.str "Tees"), none, some (.num 0), none, none⟩ 5 sampleDB :=
  create_falsy_required _ _ 5 sampleDB

/-- C8: a token issued for an identity verifies (same secret, within the
30-day window) to claims carrying that identity's id and email; any
malformed, wrongly-signed or expired token verifies to `none` — the
`try/catch` in `verifyToken` never lets an exception reach the caller. -/
theorem token_roundtrip (u : User) (sec : String) (now t : Nat)
    (hsec : sec ≠ "") (hwin : t < now + thirtyDays) : TokenRoundtripSpec u sec now t := by
  have hnotexp : ¬(now + thirtyDays ≤ t) := by omega
  refine ⟨?_, ?_, ?_, ?_⟩
  · simp [verifyToken, jwtVerify, generateToken, hsec, hnotexp, Except.toOption]
  · intro raw
    exact verifyToken_malformed raw (some sec) t
  · intro c s exp hs
    simp [verifyToken, jwtVerify, hsec, hs, Except.toOption]
  · intro c s exp hexp
    by_cases hs : s = sec
    · subst hs
      simp [verifyToken, jwtVerify, hsec, hexp, Except.toOption]
    · simp [verifyToken, jwtVerify, hsec, hs, Except.toOption]

theorem token_roundtrip_witness :
    TokenRoundtripSpec ⟨"test123", "test@nesswear.com"⟩ "s3cret" 0 10 :=
  token_roundtrip _ "s3cret" 0 10 (by decide) (by decide)

/-- C5: a mutating request without a token is answered 401 with the
database untouched and the route handler never run; one with a token that
fails verification is answered 403, again with the database untouched;
only a verified token lets the handler execute. -/
theorem authenticateToken_gate (authHeader : Option (List JwtToken)) (jwtSecret : Option String)
    (now : Nat) (db : DB) (handler : Claims → DB → HResult) :
    AuthGateSpec authHeader jwtSecret now db handler := by
  refine ⟨?_, ?_, ?_⟩
  · intro hmiss
    cases hex : extractToken authHeader with
    | none => simp [authenticateToken, hex]
    | some t =>
      rw [tokenMissing, hex] at hmiss
      have hf : t.falsy = true := hmiss
      simp [authenticateToken, hex, hf]
  · intro t hex hfalsy hver
    simp [authenticateToken, hex, hfalsy, hver]
  · intro t c hex hver
    have hfalsy : t.falsy = false := by
      cases t with
      | signed cl s e => rfl
      | malformed raw => rw [verifyToken_malformed] at hver; exact absurd hver (by simp)
    simp [authenticateToken, hex, hfalsy, hver]

theorem authenticateToken_gate_witness :
    AuthGateSpec (some [.malformed "Bearer", generateToken ⟨"test123", "test@nesswear.com"⟩ "s3cret" 0])
      (some "s3cret") 5 sampleDB (fun _ db => deleteCategories "100" db) :=
  authenticateToken_gate _ _ 5 sampleDB _

/-- C6 counterexample: with no signing secret configured, variant A's
startup — which has no secret check — reaches the serving state instead of
terminating. -/
theorem startupA_missing_secret_cex :
    startupA none true = .serving ∧ startupA none true ≠ .exited := by decide

/-- C6 (amended): variant B terminates at startup when the signing secret
is missing or empty and otherwise starts exactly like variant A; variant A
has no such check, and a process without a secret verifies every token to
`none` (so all mutating requests are rejected). -/
theorem startupB_secret_gate (connectOk : Bool) (s : String) (t : JwtToken) (now : Nat) :
    StartupCheckSpec connectOk s t now := by
  refine ⟨rfl, ?_, ?_, rfl⟩
  · simp [startupB, truthyStr]
  · intro hs
    simp [startupB, startupA, truthyStr, bne_iff_ne, hs]

theorem startupB_secret_gate_witness : StartupCheckSpec true "s3cret" (.malformed "x") 5 :=
  startupB_secret_gate true "s3cret" (.malformed "x") 5

/-- C1: subcategory create and reference-carrying subcategory update are
rejected with 400 (`Parent category not found`), touching nothing, when
the referenced category is absent; when it is present the write proceeds
and the stored and returned reference equals the supplied value. -/
theorem subcategory_parent_check (body : SubcategoryBody) (id : String) (now : Nat) (db : DB)
    (v : JsValue) (hname : truthyOpt body.name = true) (hcat : body.categoryId = some v) :
    RefIntegritySpec body id now db v := by
  refine ⟨?_, ?_, ?_, ?_⟩
  · intro hv hnone
    have hvt : truthyOpt (some v) = true := by simpa [truthyOpt] using hv
    simp [postSubcategories, hname, hvt, hcat, hnone]
  · intro hv hsome
    have hvt : truthyOpt (some v) = true := by simpa [truthyOpt] using hv
    obtain ⟨c, hc⟩ := Option.isSome_iff_exists.mp hsome
    refine ⟨⟨toString now, body.name.getD .null, body.description, v, body.image,
      body.isActive.getD (.bool true), now, now⟩, ?_, rfl⟩
    simp [postSubcategories, hname, hvt, hcat, hc]
  · intro hnone
    simp [putSubcategories, hcat, hnone]
  · intro hsome hmatch
    obtain ⟨c, hc⟩ := Option.isSome_iff_exists.mp hsome
    obtain ⟨pre, s0, post, hdecomp, hpre, hs0, happly⟩ :=
      putSubcatApply_matched id body now (some v) db hmatch
    have hroute : putSubcategories id body now db = putSubcatApply id body now (some v) db := by
      simp [putSubcategories, hcat, hc]
    have hid : ((applySubcategoryUpdate body now (some v) s0)._id == id) = true := hs0
    refine ⟨applySubcategoryUpdate body now (some v) s0, ?_, ?_, ?_, rfl⟩
    · rw [hroute, happly]
    · rw [hroute, happly]
    · rw [hroute, happly]
      exact find?_append_first _ _ _ _ hpre hid

theorem subcategory_parent_check_witness :
    RefIntegritySpec ⟨some (.str "Zip"), none, some (.str "100"), none, none⟩
      "200" 7 sampleDB (.str "100") :=
  subcategory_parent_check _ "200" 7 sampleDB _ (by decide) rfl

/-- C2: deleting an unmatched category answers 404 and deletes no
subcategory; deleting a matched one removes the category and exactly the
subcategories referencing it, answers 200, and a subsequent list filtered
by that reference is empty. -/
theorem deleteCategories_cascade (id : String) (db : DB) : CascadeDeleteSpec id db := by
  refine ⟨?_, ?_⟩
  · intro h
    have hn : db.categories.find? (fun c => c._id == id) = none := by
      cases hf : db.categories.find? (fun c => c._id == id) with
      | none => rfl
      | some c => rw [hf] at h; simp at h
    simp [deleteCategories, hn]
  · intro h
    obtain ⟨pre, c, post, hdecomp, hpre, hc⟩ := find?_isSome_decomp _ _ h
    have hfind : db.categories.find? (fun x => x._id == id) = some c := by
      rw [hdecomp]; exact find?_append_first _ _ _ _ hpre hc
    have herase : db.categories.eraseP (fun x => x._id == id) = pre ++ post := by
      rw [hdecomp]; exact eraseP_append_first _ _ _ _ hpre hc
    refine ⟨?_, ?_, ?_, ?_, ?_, ?_, ?_⟩
    · simp [deleteCategories, hfind]
    · simp [deleteCategories, hfind]
    · have hlen : (pre ++ post).length + 1 = db.categories.length := by
        rw [hdecomp]
        simp only [List.length_append, List.length_cons]
        omega
      simpa [deleteCategories, hfind, herase] using hlen
    · intro hpair
      rw [hdecomp] at hpair
      have hceq : c._id = id := by simpa using hc
      have hcpost : ∀ b ∈ post, c._id ≠ b._id :=
        (List.pairwise_cons.mp (List.pairwise_append.mp hpair).2.1).1
      simp only [deleteCategories, hfind, herase]
      rw [List.find?_eq_none]
      intro x hx
      rcases List.mem_append.mp hx with hxpre | hxpost
      · simpa using hpre x hxpre
      · have hne : x._id ≠ id := by
          intro hxeq
          exact hcpost x hxpost (by rw [hceq, hxeq])
        simpa using hne
    · intro s hs
      simp [deleteCategories, hfind] at hs
      exact hs.2
    · intro s hs hne
      simp [deleteCategories, hfind]
      exact ⟨hs, hne⟩
    · intro hid
      simp [deleteCategories, hfind, getSubcategories, truthyStr, bne_iff_ne, hid,
        filter_bne_filter_beq]

theorem deleteCategories_cascade_witness : CascadeDeleteSpec "100" sampleDB :=
  deleteCategories_cascade "100" sampleDB

/-- C3 counterexample: subcategory `"200"` exists in `sampleDB`, yet an
update whose body carries a category reference to a nonexistent category
answers 400 — not 200 with the refreshed document as the claim states for
a matched identifier, whatever the other body fields. -/
theorem update_status_cex :
    (sampleDB.subcategories.find? (fun s => s._id == "200")).isSome = true ∧
    (putSubcategories "200" ⟨none, none, some (.str "ghost"), none, none⟩ 5 sampleDB).status
      = 400 := by decide

/-- C3 (amended): an unmatched update answers 404 and a matched one 200
with the refreshed stored document — unconditionally for categories, and
for subcategories whenever the supplied category reference (if any)
exists; a reference to a nonexistent category makes the subcategory update
answer 400 instead, before the match is consulted. -/
theorem update_match_status (id : String) (cbody : CategoryBody) (sbody : SubcategoryBody)
    (now : Nat) (db : DB) : UpdateStatusSpec id cbody sbody now db := by
  refine ⟨?_, ?_, ?_, ?_⟩
  · intro hn
    simp [putCategories, hn]
  · intro h
    obtain ⟨pre, c, post, hdecomp, hpre, hc, heq⟩ := putCategories_matched id cbody now db h
    have hid : ((applyCategoryUpdate cbody now c)._id == id) = true := hc
    refine ⟨applyCategoryUpdate cbody now c, ?_, ?_, ?_⟩
    · rw [heq]
    · rw [heq]
    · rw [heq]
      exact find?_append_first _ _ _ _ hpre hid
  · intro hok
    have hroute : putSubcategories id sbody now db
        = putSubcatApply id sbody now sbody.categoryId db := by
      rcases hok with hnone | ⟨v, hv, hsome⟩
      · simp [putSubcategories, hnone]
      · obtain ⟨c, hc⟩ := Option.isSome_iff_exists.mp hsome
        simp [putSubcategories, hv, hc]
    constructor
    · intro hn
      rw [hroute]
      simp [putSubcatApply, hn]
    · intro hm
      obtain ⟨pre, s, post, hdecomp, hpre, hs, heq⟩ :=
        putSubcatApply_matched id sbody now sbody.categoryId db hm
      have hid : ((applySubcategoryUpdate sbody now sbody.categoryId s)._id == id) = true := hs
      refine ⟨applySubcategoryUpdate sbody now sbody.categoryId s, ?_, ?_, ?_⟩
      · rw [hroute, heq]
      · rw [hroute, heq]
      · rw [hroute, heq]
        exact find?_append_first _ _ _ _ hpre hid
  · rintro ⟨v, hv, hnone⟩
    simp [putSubcategories, hv, hnone]

theorem update_match_status_witness :
    UpdateStatusSpec "200" ⟨some (.str "Hats"), none, none, none⟩
      ⟨some (.str "Crew"), none, some (.str "100"), none, none⟩ 9 sampleDB :=
  update_match_status "200" _ _ 9 sampleDB

/-- C4 counterexample: variant A's create enforces no name uniqueness — a
second category named `Hoodies` is created (201) alongside `catHoodies`,
leaving two stored categories with that name. -/
theorem category_duplicate_name_cex :
    (postCategories ⟨some (.str "Hoodies"), none, none, none⟩ 200 sampleDB).status = 201 ∧
    ((postCategories ⟨some (.str "Hoodies"), none, none, none⟩ 200 sampleDB).db.categories.filter
        (fun c => c.name == .str "Hoodies")).length = 2 := by decide

/-- C4 (amended): with variant B's unique name index in place, creating a
category whose name duplicates a stored one fails (500) without creating a
document, and a fresh truthy name is stored as supplied. -/
theorem postCategoriesB_unique_name (body : CategoryBody) (newId : String) (now : Nat)
    (db : DB) (v : JsValue) (hname : body.name = some v) (hv : v.truthy = true) :
    UniqueNameSpec body newId now db v := by
  have hvt : truthyOpt (some v) = true := by simpa [truthyOpt] using hv
  constructor
  · intro hdup
    simp [postCategoriesB, hname, hvt, hdup]
  · intro hdup
    refine ⟨⟨newId, v, body.description, body.image, body.isActive.getD (.bool true), now, now⟩,
      ?_, rfl⟩
    simp [postCategoriesB, hname, hvt, hdup]

theorem postCategoriesB_unique_name_witness :
    UniqueNameSpec ⟨some (.str "Hoodies"), none, none, none⟩ "abc123" 300 sampleDB
      (.str "Hoodies") :=
  postCategoriesB_unique_name _ "abc123" 300 sampleDB _ rfl (by decide)

/-- C7: a successful (200) update rewrites only the matched document —
supplied fields to their supplied values, unsupplied fields kept,
`updatedAt` always set to the clock — and leaves every other document in
both collections unchanged. -/
theorem update_frame (cid sid : String) (cbody : CategoryBody) (sbody : SubcategoryBody)
    (now : Nat) (db : DB) :
    UpdateFrameCatSpec cid cbody now db ∧ UpdateFrameSubcatSpec sid sbody now db := by
  constructor
  · intro h200
    have hm : (db.categories.find? (fun c => c._id == cid)).isSome = true := by
      cases hf : db.categories.find? (fun c => c._id == cid) with
      | none =>
        rw [show putCategories cid cbody now db = ⟨404, .err "Category not found", db⟩ from by
          simp [putCategories, hf]] at h200
        simp at h200
      | some c => rfl
    obtain ⟨pre, c, post, hdecomp, hpre, hc, heq⟩ := putCategories_matched cid cbody now db hm
    refine ⟨pre, c, post, applyCategoryUpdate cbody now c, hdecomp, hc, ?_, ?_, rfl, rfl, rfl,
      ?_, ?_, ?_, ?_, ?_, ?_, ?_, ?_⟩
    · rw [heq]
    · rw [heq]
    · intro hn; simp [applyCategoryUpdate, hn]
    · intro v hvv; simp [applyCategoryUpdate, hvv]
    · intro hn; simp [applyCategoryUpdate, mergeField, hn]
    · intro v hvv; simp [applyCategoryUpdate, mergeField, hvv]
    · intro hn; simp [applyCategoryUpdate, mergeField, hn]
    · intro v hvv; simp [applyCategoryUpdate, mergeField, hvv]
    · intro hn; simp [applyCategoryUpdate, hn]
    · intro v hvv; simp [applyCategoryUpdate, hvv]
  · intro h200
    obtain ⟨catId, hcatrel, hroute⟩ :
        ∃ catId, catId = sbody.categoryId ∧
          putSubcategories sid sbody now db = putSubcatApply sid sbody now catId db := by
      cases hcat : sbody.categoryId with
      | none => exact ⟨none, rfl, by simp [putSubcategories, hcat]⟩
      | some v =>
        cases hfc : findCategory db v with
        | none =>
          rw [show putSubcategories sid sbody now db
              = ⟨400, .err "Parent category not found", db⟩ from by
            simp [putSubcategories, hcat, hfc]] at h200
          simp at h200
        | some c0 => exact ⟨some v, rfl, by simp [putSubcategories, hcat, hfc]⟩
    rw [hroute] at h200
    have hm : (db.subcategories.find? (fun s => s._id == sid)).isSome = true := by
      cases hf : db.subcategories.find? (fun s => s._id == sid) with
      | none =>
        rw [show putSubcatApply sid sbody now catId db
            = ⟨404, .err "Subcategory not found", db⟩ from by
          simp [putSubcatApply, hf]] at h200
        simp at h200
      | some s => rfl
    obtain ⟨pre, s, post, hdecomp, hpre, hs, heq⟩ :=
      putSubcatApply_matched sid sbody now catId db hm
    refine ⟨pre, s, post, applySubcategoryUpdate sbody now catId s, hdecomp, hs, ?_, ?_,
      rfl, rfl, rfl, ?_, ?_, ?_, ?_, ?_, ?_, ?_, ?_, ?_, ?_⟩
    · rw [hroute, heq]
    · rw [hroute, heq]
    · intro hn; simp [applySubcategoryUpdate, hn]
    · intro v hvv; simp [applySubcategoryUpdate, hvv]
    · intro hn; simp [applySubcategoryUpdate, mergeField, hn]
    · intro v hvv; simp [applySubcategoryUpdate, mergeField, hvv]
    · intro hn; simp [applySubcategoryUpdate, mergeField, hn]
    · intro v hvv; simp [applySubcategoryUpdate, mergeField, hvv]
    · intro hn; simp [applySubcategoryUpdate, hn]
    · intro v hvv; simp [applySubcategoryUpdate, hvv]
    · intro hn
      have hcn : catId = none := hcatrel.trans hn
      simp [applySubcategoryUpdate, hcn]
    · intro v hvv
      have hcv : catId = some v := hcatrel.trans hvv
      simp [applySubcategoryUpdate, hcv]

theorem update_frame_witness :
    UpdateFrameCatSpec "100" ⟨some (.str "Hats"), none, none, none⟩ 300 sampleDB ∧
    UpdateFrameSubcatSpec "200" ⟨none, none, some (.str "100"), none, none⟩ 300 sampleDB :=
  update_frame "100" "200" _ _ 300 sampleDB

end NessWear
